import Mathlib

/-!
Shallow embedding of `tty2img.py` (class `tty2img`: `__init__`, `memofont`,
`render`, and the module-level helper `_convertColor`), together with theorems
settling the specification claims about it.

Conventions of the embedding:
* PIL / freetype font metrics are abstracted into a `FontEnv` record of pure
  functions: `getsizeW name size text` is `ImageFont.truetype(name, size).getsize(text)[0]`,
  `metricsSum name size` is `sum(font.getmetrics())` (ascent + descent),
  `hasGlyph name ch` is `freetype.Face(path).get_char_index(ch) != 0`, and
  `colormap` is membership in `PIL.ImageColor.colormap`.
* A PIL image is modelled as its dimensions, its background fill and the list
  of drawing operations performed on it, in order.  `Image.resize` is modelled
  as changing the dimensions (the claims about it concern dimensions only).
* Python exceptions are modelled with `Except`.  The only exception reachable
  in `memofont` is the `NameError` raised by evaluating the unbound name
  `fallbackFonts` (see the doc comment on `Tty2img.memofont`).
* Python `int` arithmetic on pixel positions is modelled with `Int`
  (the cursor-past-text adjustment can move the pen position left);
  inherently non-negative sizes (font sizes, char metrics) use `Nat`.
-/

/-- Python exceptions reachable in the embedded code. -/
inductive PyError where
  | nameError
deriving DecidableEq, Repr

/-- Abstraction of the font machinery (PIL `ImageFont` + `freetype.Face`):
pure metric functions of the font file name and point size, plus the
`PIL.ImageColor.colormap` membership test used by `_convertColor`. -/
structure FontEnv where
  getsizeW : String → Nat → String → Nat
  metricsSum : String → Nat → Nat
  hasGlyph : String → String → Bool
  colormap : String → Bool

/-- A font loaded by `ImageFont.truetype(name, size)`: identified by file name
and point size; its metrics are provided by the ambient `FontEnv`. -/
structure LoadedFont where
  name : String
  size : Nat
deriving DecidableEq, Repr

/-- One pyte buffer cell (`pyte.screens.Char`): the fields of `cData` read by
`render`. -/
structure CharData where
  data : String
  fg : String
  bg : String
  reverse : Bool
  bold : Bool
  italics : Bool
  underscore : Bool
  strikethrough : Bool
deriving DecidableEq, Repr

/-- `screen.cursor` of a pyte screen. -/
structure Cursor where
  x : Nat
  y : Nat
  hidden : Bool
deriving DecidableEq, Repr

/-- A pyte screen: column/line counts, the sparse buffer
(row index → column index → cell, both as association lists in iteration
order), and the cursor. -/
structure Screen where
  columns : Nat
  lines : Nat
  buffer : List (Nat × List (Nat × CharData))
  cursor : Cursor
deriving DecidableEq, Repr

/-- A drawing operation performed on the working image: `ImageDraw.rectangle`,
`ImageDraw.line` or `ImageDraw.text`, with the pixel coordinates and fill
color passed to it. -/
inductive DrawOp where
  | rect (x0 y0 x1 y1 : Int) (fill : String)
  | line (x0 y0 x1 y1 : Int) (fill : String)
  | text (x y : Int) (s : String) (fill : String) (font : LoadedFont)
deriving DecidableEq, Repr

/-- A PIL image: dimensions, the solid fill it was created with, and the
drawing operations applied to it in order. -/
structure Image where
  width : Nat
  height : Nat
  bgFill : String
  ops : List DrawOp
deriving DecidableEq, Repr

/-- The keyword arguments of `tty2img.__init__`, with their Python default
values.  `fallbackFonts` and `logFunction` are accepted by the source but are
never stored on `self` (which is why `memofont` cannot see them); they are
kept here for fidelity of the interface. -/
structure Args where
  fgDefaultColor : String := "black"
  bgDefaultColor : String := "white"
  fontName : String := "DejaVuSansMono.ttf"
  boldFontName : String := "DejaVuSansMono-Bold.ttf"
  italicsFontName : String := "DejaVuSansMono-Oblique.ttf"
  boldItalicsFontName : String := "DejaVuSansMono-BoldOblique.ttf"
  fallbackFonts : List String := ["DroidSansFallback", "Symbola"]
  fontSize : Nat := 16
  lineSpace : Nat := 0
  marginSize : Nat := 10
  antialiasing : Nat := 0
  showCursor : Bool := false
  hasLogFunction : Bool := false

/-- The reference glyph string used by `getsize('X')` calls. -/
def refGlyph : String := "X"

/-- The color sentinel `'default'`. -/
def defaultSentinel : String := "default"

/-- The state of a `tty2img` instance after `__init__`: every `self.*`
attribute assigned there (`base_draw` is a handle onto `base_image` and is
subsumed by it). -/
structure Tty2img where
  antialiasing : Nat
  lineSpace : Nat
  marginSize : Nat
  fontSize : Nat
  normalFont : LoadedFont
  boldFont : LoadedFont
  italicsFont : LoadedFont
  boldItalicsFont : LoadedFont
  charWidth : Nat
  charHeight : Nat
  imgWidth : Nat
  imgHeight : Nat
  bgDefaultColor : String
  fgDefaultColor : String
  base_image : Image
  showCursor : Bool
deriving Repr

/-- One iteration test of the size negotiation loop (lines 102-111):
at candidate size `i`, load the normal font, compute
`cw = getsize('X')[0]`, `ch = sum(getmetrics()) + lineSpace`,
`iw = cw*columns + 2*marginSize`, `ih = ch*lines + 2*marginSize`,
and report whether `iw > 1920 or ih > 1080`.  `lineSpace` and `marginSize`
here are the *unscaled* `__init__` parameters (the loop reads the locals,
not the `self.*` fields). -/
def projOverflow (env : FontEnv) (fontName : String)
    (lineSpace marginSize cols lines : Nat) (i : Nat) : Bool :=
  let cw := env.getsizeW fontName i refGlyph
  let ch := env.metricsSum fontName i + lineSpace
  decide (cw * cols + 2 * marginSize > 1920) || decide (ch * lines + 2 * marginSize > 1080)

/-- The size negotiation loop `for i in range(8, 64)` (lines 102-111): the
first candidate size whose projection overflows the 1920x1080 cap wins; when
no candidate overflows, the local `fontSize` keeps its incoming value
`fontSize0` (the loop body never raises). -/
def negotiateFontSize (env : FontEnv) (fontName : String)
    (lineSpace marginSize cols lines fontSize0 : Nat) : Nat :=
  match (List.range' 8 56).find?
      (fun i => projOverflow env fontName lineSpace marginSize cols lines i) with
  | some i => i
  | none => fontSize0

/-- `tty2img.__init__` (lines 29-138).  When `antialiasing > 1` the *stored*
`self.lineSpace`, `self.marginSize`, `self.fontSize` are the scaled values
(lines 92-99); the size negotiation (lines 102-111) and the
`charWidth`/`charHeight` computation (lines 125-126) read the unscaled local
parameters, and the four fonts are loaded (lines 114-117) at the local
`fontSize` left by the loop.  `imgWidth`/`imgHeight` are the hard-coded cap
(lines 127-128) and `base_image` is a fresh cap-sized image filled with the
default background (line 136). -/
def Tty2img.init (env : FontEnv) (screen : Screen) (a : Args) : Tty2img :=
  let lineSpaceS := if 1 < a.antialiasing then a.lineSpace * a.antialiasing else a.lineSpace
  let marginSizeS := if 1 < a.antialiasing then a.marginSize * a.antialiasing else a.marginSize
  let fontSizeS := if 1 < a.antialiasing then a.fontSize * a.antialiasing else a.fontSize
  let fontSize1 := negotiateFontSize env a.fontName a.lineSpace a.marginSize
      screen.columns screen.lines a.fontSize
  { antialiasing := a.antialiasing
    lineSpace := lineSpaceS
    marginSize := marginSizeS
    fontSize := fontSizeS
    normalFont := ⟨a.fontName, fontSize1⟩
    boldFont := ⟨a.boldFontName, fontSize1⟩
    italicsFont := ⟨a.italicsFontName, fontSize1⟩
    boldItalicsFont := ⟨a.boldItalicsFontName, fontSize1⟩
    charWidth := env.getsizeW a.fontName fontSize1 refGlyph
    charHeight := env.metricsSum a.fontName fontSize1 + a.lineSpace
    imgWidth := 1920
    imgHeight := 1080
    bgDefaultColor := a.bgDefaultColor
    fgDefaultColor := a.fgDefaultColor
    base_image := ⟨1920, 1080, a.bgDefaultColor, []⟩
    showCursor := a.showCursor }

/-- Module-level `_convertColor` (lines 235-238): prefix a hash mark unless
the token already starts with one or is a known named color. -/
def convertColor (env : FontEnv) (color : String) : String :=
  if color.front != '#' && !(env.colormap color) then "#" ++ color else color

/-- `tty2img.memofont` (lines 141-158).  When the variant's freetype face has
a glyph index for `char`, it returns `(extraWidth, font) = (0, font)`
unchanged.  When the glyph is missing, the body evaluates
`for fname in fallbackFonts:` -- but `fallbackFonts` is not a local, not an
attribute of `self`, and not a module global (it is only an `__init__`
parameter that is never stored), so Python raises `NameError` there; the
names `fclist` (its import is commented out), `cData`, `fontSize` and
`logFunction` used further down are equally unbound.  Hence the fallback
branch never returns and a missing glyph aborts the caller. -/
def Tty2img.memofont (env : FontEnv) (font : LoadedFont) (char : String) :
    Except PyError (Int × LoadedFont) :=
  if env.hasGlyph font.name char then Except.ok (0, font)
  else Except.error PyError.nameError

/-- The color resolution of one cell (lines 183-190): substitute the
configured defaults for `'default'` sentinels, then swap if `reverse`, then
swap again if this is the cursor cell and the cursor is effectively shown.
Returns `(bgColor, fgColor)`. -/
def resolveCellColors (st : Tty2img) (cd : CharData) (isCursorCell : Bool) :
    String × String :=
  let bgColor := if cd.bg ≠ defaultSentinel then cd.bg else st.bgDefaultColor
  let fgColor := if cd.fg ≠ defaultSentinel then cd.fg else st.fgDefaultColor
  let pair := if cd.reverse then (fgColor, bgColor) else (bgColor, fgColor)
  if isCursorCell then (pair.2, pair.1) else pair

/-- The 4-way font variant selection (lines 199-206). -/
def Tty2img.pickFont (st : Tty2img) (cd : CharData) : LoadedFont :=
  if cd.bold && cd.italics then st.boldItalicsFont
  else if cd.bold then st.boldFont
  else if cd.italics then st.italicsFont
  else st.normalFont

/-- The body of one loop iteration of `render` for a cell with non-empty
`data` (lines 182-222, everything after the gap adjustment): resolve colors,
draw the background rectangle when the resolved background differs from the
default, select the variant, resolve the glyph font via `memofont`, draw
underline/strikethrough, draw the glyph, and return the produced operations
together with the updated pen position `p + charWidth + extraWidth`. -/
def cellOps (env : FontEnv) (st : Tty2img) (effShowCursor : Bool)
    (cursor : Cursor) (lineIdx : Nat) (y p : Int) (col : Nat) (cd : CharData) :
    Except PyError (List DrawOp × Int) :=
  let isCursorCell := effShowCursor && (lineIdx == cursor.y) && (col == cursor.x)
  let colors := resolveCellColors st cd isCursorCell
  let bgColor := convertColor env colors.1
  let fgColor := convertColor env colors.2
  let cw : Int := st.charWidth
  let ch : Int := st.charHeight
  let bgOps := if bgColor ≠ st.bgDefaultColor then
      [DrawOp.rect p y (p + cw) (y + ch) bgColor]
    else []
  let font := st.pickFont cd
  match Tty2img.memofont env font cd.data with
  | Except.error e => Except.error e
  | Except.ok (extraWidth, drawFont) =>
    let underOps := if cd.underscore then
        [DrawOp.line p (y + ch - 1) (p + cw) (y + ch - 1) fgColor]
      else []
    let strikeOps := if cd.strikethrough then
        [DrawOp.line p (y + (st.charHeight / 2 : Nat)) (p + cw) (y + (st.charHeight / 2 : Nat)) fgColor]
      else []
    Except.ok (bgOps ++ underOps ++ strikeOps ++ [DrawOp.text p y cd.data fgColor drawFont],
      p + cw + extraWidth)

/-- The per-line character loop of `render` (lines 171-222), over the sorted
populated columns.  State: pen x position `p` (starting at the margin) and
`lchar`, the previously visited column (starting at `-1`; the source keeps
the equal values `char` and `lchar`, updated together at lines 175-176).
Each iteration first advances over skipped columns by
`charWidth * (col - lchar - 1)`; a cell whose `data` is the empty string is
then skipped entirely (lines 179-180); otherwise the cell is drawn and the
pen advances by `charWidth + extraWidth`. -/
def cellsLoop (env : FontEnv) (st : Tty2img) (effShowCursor : Bool)
    (cursor : Cursor) (lineIdx : Nat) (y : Int) :
    List (Nat × CharData) → Int → Int → Except PyError (List DrawOp × Int × Int)
  | [], p, lchar => Except.ok ([], p, lchar)
  | (col, cd) :: rest, p, lchar =>
    let p1 := p + (st.charWidth : Int) * ((col : Int) - lchar - 1)
    let lchar1 : Int := col
    if cd.data = "" then
      cellsLoop env st effShowCursor cursor lineIdx y rest p1 lchar1
    else
      match cellOps env st effShowCursor cursor lineIdx y p1 col cd with
      | Except.error e => Except.error e
      | Except.ok (ops, p2) =>
        match cellsLoop env st effShowCursor cursor lineIdx y rest p2 lchar1 with
        | Except.error e => Except.error e
        | Except.ok (ops2, pf, lf) => Except.ok (ops ++ ops2, pf, lf)

/-- Insertion into a list sorted by column index (ascending). -/
def insertSorted (x : Nat × CharData) : List (Nat × CharData) → List (Nat × CharData)
  | [] => [x]
  | y :: ys => if x.1 ≤ y.1 then x :: y :: ys else y :: insertSorted x ys

/-- `sorted(screen.buffer[line].keys())` (line 171): the row's cells in
ascending column order. -/
def sortRow : List (Nat × CharData) → List (Nat × CharData)
  | [] => []
  | x :: xs => insertSorted x (sortRow xs)

/-- One iteration of the outer row loop of `render` (lines 168-227): draw the
row's populated cells in ascending column order starting from
`point = [marginSize, line*charHeight + marginSize]`, then, when the cursor
is effectively shown, sits on this row and its column is not populated,
advance by `(cursor.x - char - 1) * charWidth` and draw a block rectangle in
the default foreground color (lines 225-227). -/
def renderLine (env : FontEnv) (st : Tty2img) (effShowCursor : Bool)
    (cursor : Cursor) (lineIdx : Nat) (row : List (Nat × CharData)) :
    Except PyError (List DrawOp) :=
  let y : Int := (lineIdx : Int) * st.charHeight + st.marginSize
  match cellsLoop env st effShowCursor cursor lineIdx y (sortRow row)
      (st.marginSize : Int) (-1) with
  | Except.error e => Except.error e
  | Except.ok (ops, p, lchar) =>
    if effShowCursor && (lineIdx == cursor.y) && (row.lookup cursor.x).isNone then
      let p1 := p + ((cursor.x : Int) - lchar - 1) * st.charWidth
      Except.ok (ops ++ [DrawOp.rect p1 y (p1 + st.charWidth) (y + st.charHeight) st.fgDefaultColor])
    else Except.ok ops

/-- The outer row loop of `render` (line 168): rows are visited in buffer
iteration order and their drawing operations concatenated. -/
def renderBuffer (env : FontEnv) (st : Tty2img) (effShowCursor : Bool)
    (cursor : Cursor) : List (Nat × List (Nat × CharData)) → Except PyError (List DrawOp)
  | [] => Except.ok []
  | (lineIdx, row) :: rest =>
    match renderLine env st effShowCursor cursor lineIdx row with
    | Except.error e => Except.error e
    | Except.ok ops =>
      match renderBuffer env st effShowCursor cursor rest with
      | Except.error e => Except.error e
      | Except.ok ops2 => Except.ok (ops ++ ops2)

/-- `tty2img.render` (lines 160-233).  Line 165 *reassigns*
`self.showCursor = self.showCursor and (not screen.cursor.hidden)`, so the
call returns both the updated instance state and the produced image (or the
propagated exception).  The working image is a copy of `base_image`
(line 161); when `antialiasing > 1`, the result is resized to
`(imgWidth // antialiasing, imgHeight // antialiasing)` (lines 230-231),
modelled as a change of dimensions. -/
def Tty2img.render (env : FontEnv) (st : Tty2img) (screen : Screen) :
    Tty2img × Except PyError Image :=
  ({ st with showCursor := st.showCursor && !screen.cursor.hidden },
   match renderBuffer env st (st.showCursor && !screen.cursor.hidden)
       screen.cursor screen.buffer with
   | Except.error e => Except.error e
   | Except.ok ops =>
     let image : Image := { st.base_image with ops := st.base_image.ops ++ ops }
     if 1 < st.antialiasing then
       Except.ok { image with width := st.imgWidth / st.antialiasing,
                              height := st.imgHeight / st.antialiasing }
     else Except.ok image)

/-!
Auxiliary definitions used by the theorems below: a horizontal-translation
operation on drawing primitives, and concrete test fixtures (font
environments, screens, cells, argument records) on which closed statements
are evaluated.
-/

/-- Horizontal translation of a drawing operation by `d` pixels. -/
def shiftOp (d : Int) : DrawOp → DrawOp
  | DrawOp.rect x0 y0 x1 y1 f => DrawOp.rect (x0 + d) y0 (x1 + d) y1 f
  | DrawOp.line x0 y0 x1 y1 f => DrawOp.line (x0 + d) y0 (x1 + d) y1 f
  | DrawOp.text x y s f font => DrawOp.text (x + d) y s f font

/-- A blank cell carrying default colors: a space with sentinel colors and no
style flags (the explicit form of an absent cell). -/
def blankCell : CharData :=
  { data := " ", fg := defaultSentinel, bg := defaultSentinel, reverse := false
    bold := false, italics := false, underscore := false, strikethrough := false }

/-- The `__init__` keyword arguments at their Python defaults. -/
def argsDefault : Args := {}

/-- Defaults with antialiasing 2 and one pixel of line spacing. -/
def argsAA2 : Args := { fontSize := 16, lineSpace := 1, marginSize := 10, antialiasing := 2 }

/-- Same as `argsAA2` but without antialiasing (Python default 0). -/
def argsAA0 : Args := { fontSize := 16, lineSpace := 1, marginSize := 10, antialiasing := 0 }

/-- Fixture: every glyph is one pixel wide and one pixel tall at every size,
so no candidate size overflows the cap. -/
def testEnvTiny : FontEnv :=
  { getsizeW := fun _ _ _ => 1
    metricsSum := fun _ _ => 1
    hasGlyph := fun _ _ => true
    colormap := fun c => c == "white" || c == "black" }

/-- Fixture: glyph width and height grow linearly with the point size. -/
def testEnvLinear : FontEnv :=
  { getsizeW := fun _ i _ => i
    metricsSum := fun _ i => i
    hasGlyph := fun _ _ => true
    colormap := fun c => c == "white" || c == "black" }

/-- Fixture: wide constant metrics (every size overflows the cap already at
80 columns), all glyphs present. -/
def testEnvWide : FontEnv :=
  { getsizeW := fun _ _ _ => 100
    metricsSum := fun _ _ => 10
    hasGlyph := fun _ _ => true
    colormap := fun c => c == "white" || c == "black" }

/-- Fixture: like `testEnvWide` but the glyph for `"q"` is missing from every
face. -/
def testEnvNoGlyph : FontEnv :=
  { getsizeW := fun _ _ _ => 100
    metricsSum := fun _ _ => 10
    hasGlyph := fun _ ch => !(ch == "q")
    colormap := fun c => c == "white" || c == "black" }

/-- An empty 80x24 screen with a visible cursor at the origin. -/
def scr80 : Screen :=
  { columns := 80, lines := 24, buffer := [], cursor := { x := 0, y := 0, hidden := false } }

/-- An empty 120x24 screen with a visible cursor at the origin. -/
def scr120 : Screen :=
  { columns := 120, lines := 24, buffer := [], cursor := { x := 0, y := 0, hidden := false } }

/-- An empty 80x24 screen whose cursor is hidden. -/
def scrHiddenCursor : Screen :=
  { columns := 80, lines := 24, buffer := [], cursor := { x := 0, y := 0, hidden := true } }

/-- A default-styled cell holding the letter `q`. -/
def cellQ : CharData :=
  { data := "q", fg := defaultSentinel, bg := defaultSentinel, reverse := false
    bold := false, italics := false, underscore := false, strikethrough := false }

/-- An 80x24 screen whose only populated cell is `cellQ` at row 0, column 0. -/
def scrQ : Screen :=
  { columns := 80, lines := 24, buffer := [(0, [(0, cellQ)])]
    cursor := { x := 0, y := 0, hidden := false } }

/-- A default-styled cell holding the letter `A`. -/
def cellA : CharData :=
  { data := "A", fg := defaultSentinel, bg := defaultSentinel, reverse := false
    bold := false, italics := false, underscore := false, strikethrough := false }

/-- A populated cell whose character is the empty placeholder (the
`cData.data == ""` case of `render`). -/
def cellEmpty : CharData :=
  { data := "", fg := defaultSentinel, bg := defaultSentinel, reverse := false
    bold := false, italics := false, underscore := false, strikethrough := false }

/-- A hidden cursor at the origin (used where the cursor is irrelevant). -/
def cur0 : Cursor := { x := 0, y := 0, hidden := true }

/-- The renderer state built from `testEnvWide`, `scr80` and default
arguments: the size negotiation adopts size 8, `charWidth` is 100,
`charHeight` is 10 and the margin is 10. -/
def stW : Tty2img := Tty2img.init testEnvWide scr80 argsDefault

/-- The normal-variant font of `stW`: the default face at the adopted size 8. -/
def fontW : LoadedFont := { name := "DejaVuSansMono.ttf", size := 8 }

/-- The drawing operations of `cellA` rendered at pen position 10 in `stW`. -/
def opsA0 : List DrawOp := [DrawOp.text 10 0 "A" "black" fontW]

/-- The drawing operations of `cellA` rendered at pen position 510 in `stW`. -/
def opsA5 : List DrawOp := [DrawOp.text 510 0 "A" "black" fontW]

/-!
General lemmas about the embedded operations, shared by the claim theorems
below.
-/

/-- A successful `find?` over `range' s n` returns the least element of the
range satisfying the predicate. -/
theorem find?_range'_first {p : Nat → Bool} :
    ∀ (n s a : Nat), (List.range' s n).find? p = some a →
      s ≤ a ∧ a < s + n ∧ p a = true ∧ ∀ j, s ≤ j → j < a → p j = false := by
  intro n
  induction n with
  | zero => intro s a h; simp [List.range'] at h
  | succ n ih =>
    intro s a h
    rw [List.range'_succ] at h
    by_cases hp : p s
    · rw [List.find?_cons_of_pos _ hp] at h
      obtain rfl : s = a := by simpa using h
      exact ⟨Nat.le_refl s, by omega, hp, fun j h1 h2 => absurd h1 (by omega)⟩
    · rw [List.find?_cons_of_neg _ hp] at h
      obtain ⟨h1, h2, h3, h4⟩ := ih (s + 1) a h
      refine ⟨by omega, by omega, h3, fun j hj1 hj2 => ?_⟩
      rcases Nat.eq_or_lt_of_le hj1 with rfl | hlt
      · exact Bool.not_eq_true _ ▸ (by simpa using hp)
      · exact h4 j hlt hj2

/-- `find?` over `range' s n` fails when the predicate fails on the whole
range. -/
theorem find?_range'_of_all_neg {p : Nat → Bool} (n s : Nat)
    (h : ∀ j, s ≤ j → j < s + n → p j = false) :
    (List.range' s n).find? p = none := by
  rw [List.find?_eq_none]
  intro x hx
  rw [List.mem_range'_1] at hx
  simp [h x hx.1 hx.2]

/-- `find?` over `range' s n` succeeds when some element of the range
satisfies the predicate. -/
theorem find?_range'_exists {p : Nat → Bool} (n s : Nat)
    (h : ∃ i, s ≤ i ∧ i < s + n ∧ p i = true) :
    ∃ a, (List.range' s n).find? p = some a := by
  cases hf : (List.range' s n).find? p with
  | some a => exact ⟨a, rfl⟩
  | none =>
    rw [List.find?_eq_none] at hf
    obtain ⟨i, h1, h2, h3⟩ := h
    exact absurd h3 (by simpa using hf i (List.mem_range'_1.mpr ⟨h1, h2⟩))

/-- The state component returned by `render`: the input state with the
`showCursor` attribute overwritten by line 165. -/
theorem render_fst (env : FontEnv) (st : Tty2img) (screen : Screen) :
    (st.render env screen).1 =
      { st with showCursor := st.showCursor && !screen.cursor.hidden } := rfl

/-- Dimensions of the image returned by a successful `render` call. -/
theorem render_ok_dims (env : FontEnv) (st : Tty2img) (screen : Screen) (img : Image)
    (h : (st.render env screen).2 = Except.ok img) :
    img.width = (if 1 < st.antialiasing then st.imgWidth / st.antialiasing
      else st.base_image.width) ∧
    img.height = (if 1 < st.antialiasing then st.imgHeight / st.antialiasing
      else st.base_image.height) := by
  unfold Tty2img.render at h
  cases hb : renderBuffer env st (st.showCursor && !screen.cursor.hidden)
      screen.cursor screen.buffer with
  | error e =>
    simp only [hb] at h
    exact Except.noConfusion h
  | ok ops =>
    by_cases haa : 1 < st.antialiasing
    · simp only [hb, if_pos haa] at h
      simp only [if_pos haa]
      obtain rfl : _ = img := Except.ok.inj h
      exact ⟨rfl, rfl⟩
    · simp only [hb, if_neg haa] at h
      simp only [if_neg haa]
      obtain rfl : _ = img := Except.ok.inj h
      exact ⟨rfl, rfl⟩

/-- The per-line loop distributes over concatenation of column segments. -/
theorem cellsLoop_append (env : FontEnv) (st : Tty2img) (eSC : Bool) (cur : Cursor)
    (li : Nat) (y : Int) (l2 : List (Nat × CharData)) :
    ∀ (l1 : List (Nat × CharData)) (p lchar : Int),
    cellsLoop env st eSC cur li y (l1 ++ l2) p lchar =
      match cellsLoop env st eSC cur li y l1 p lchar with
      | Except.error e => Except.error e
      | Except.ok (ops, p1, lc1) =>
        match cellsLoop env st eSC cur li y l2 p1 lc1 with
        | Except.error e => Except.error e
        | Except.ok (ops2, p2, lc2) => Except.ok (ops ++ ops2, p2, lc2) := by
  intro l1
  induction l1 with
  | nil =>
    intro p lchar
    simp only [List.nil_append, cellsLoop]
    cases h2 : cellsLoop env st eSC cur li y l2 p lchar with
    | error e => rfl
    | ok r => rfl
  | cons hd tl ih =>
    intro p lchar
    obtain ⟨col, cd⟩ := hd
    simp only [List.cons_append, cellsLoop]
    by_cases hd : cd.data = ""
    · rw [if_pos hd, if_pos hd]
      exact ih _ _
    · rw [if_neg hd, if_neg hd]
      cases hc : cellOps env st eSC cur li y
          (p + (st.charWidth : Int) * ((col : Int) - lchar - 1)) col cd with
      | error e => rfl
      | ok r =>
        obtain ⟨ops, p2⟩ := r
        simp only [List.append_eq]
        rw [ih p2 (col : Int)]
        cases h2 : cellsLoop env st eSC cur li y tl p2 (col : Int) with
        | error e => simp [h2]
        | ok r2 =>
          obtain ⟨ops2, pf, lf⟩ := r2
          cases h3 : cellsLoop env st eSC cur li y l2 pf lf with
          | error e => simp [h3]
          | ok r3 =>
            obtain ⟨ops3, pg, lg⟩ := r3
            simp [h3, List.append_assoc]

/-- A cell rendered at a translated pen position produces translated
operations and a translated advance. -/
theorem cellOps_shift (env : FontEnv) (st : Tty2img) (eSC : Bool) (cur : Cursor)
    (li : Nat) (y p d : Int) (col : Nat) (cd : CharData) :
    cellOps env st eSC cur li y (p + d) col cd =
      (cellOps env st eSC cur li y p col cd).map
        (fun r => (r.1.map (shiftOp d), r.2 + d)) := by
  simp only [cellOps]
  cases hm : Tty2img.memofont env (st.pickFont cd) cd.data with
  | error e => simp [hm, Except.map]
  | ok r =>
    obtain ⟨w, f⟩ := r
    simp only [hm, Except.map, List.map_append, apply_ite (List.map (shiftOp d)),
      List.map_cons, List.map_nil, shiftOp]
    ring_nf

/-- The per-line loop started at a translated pen position produces
translated operations and a translated final pen position. -/
theorem cellsLoop_shift (env : FontEnv) (st : Tty2img) (eSC : Bool) (cur : Cursor)
    (li : Nat) (y : Int) :
    ∀ (l : List (Nat × CharData)) (p lchar d : Int),
    cellsLoop env st eSC cur li y l (p + d) lchar =
      (cellsLoop env st eSC cur li y l p lchar).map
        (fun r => (r.1.map (shiftOp d), r.2.1 + d, r.2.2)) := by
  intro l
  induction l with
  | nil => intro p lchar d; rfl
  | cons hd tl ih =>
    intro p lchar d
    obtain ⟨col, cd⟩ := hd
    simp only [cellsLoop]
    have harith : p + d + (st.charWidth : Int) * ((col : Int) - lchar - 1) =
        (p + (st.charWidth : Int) * ((col : Int) - lchar - 1)) + d := by ring
    rw [harith]
    by_cases hdd : cd.data = ""
    · rw [if_pos hdd, if_pos hdd]
      exact ih _ _ _
    · rw [if_neg hdd, if_neg hdd]
      rw [cellOps_shift]
      cases hc : cellOps env st eSC cur li y
          (p + (st.charWidth : Int) * ((col : Int) - lchar - 1)) col cd with
      | error e => simp [Except.map]
      | ok r =>
        obtain ⟨ops, p2⟩ := r
        simp only [Except.map]
        rw [ih p2 (col : Int) d]
        cases h2 : cellsLoop env st eSC cur li y tl p2 (col : Int) with
        | error e => simp [h2, Except.map]
        | ok r2 =>
          obtain ⟨ops2, pf, lf⟩ := r2
          simp [h2, Except.map, List.map_append]

/-- The behavior of the per-line loop on a non-empty segment depends on the
pen position and the previous column only through the position of the first
cell. -/
theorem cellsLoop_state_eq (env : FontEnv) (st : Tty2img) (eSC : Bool) (cur : Cursor)
    (li : Nat) (y : Int) (n : Nat) (cd : CharData) (rest : List (Nat × CharData))
    (p lc q lc2 : Int)
    (h : p + (st.charWidth : Int) * ((n : Int) - lc - 1) =
         q + (st.charWidth : Int) * ((n : Int) - lc2 - 1)) :
    cellsLoop env st eSC cur li y ((n, cd) :: rest) p lc =
    cellsLoop env st eSC cur li y ((n, cd) :: rest) q lc2 := by
  simp only [cellsLoop]
  rw [h]

/-- Forward composition of two successful runs of the per-line loop. -/
theorem cellsLoop_append_ok (env : FontEnv) (st : Tty2img) (eSC : Bool) (cur : Cursor)
    (li : Nat) (y : Int) (l1 l2 : List (Nat × CharData)) (p lc p1 p2 lc1 lc2 : Int)
    (ops1 ops2 : List DrawOp)
    (h1 : cellsLoop env st eSC cur li y l1 p lc = Except.ok (ops1, p1, lc1))
    (h2 : cellsLoop env st eSC cur li y l2 p1 lc1 = Except.ok (ops2, p2, lc2)) :
    cellsLoop env st eSC cur li y (l1 ++ l2) p lc = Except.ok (ops1 ++ ops2, p2, lc2) := by
  rw [cellsLoop_append env st eSC cur li y l2 l1 p lc]
  simp [h1, h2]

/-- A leading cell whose character is the empty placeholder contributes no
operations and no advance beyond the gap adjustment, and moves the
previous-column tracker to its column. -/
theorem cellsLoop_empty_cons (env : FontEnv) (st : Tty2img) (eSC : Bool) (cur : Cursor)
    (li : Nat) (y : Int) (c : Nat) (cd : CharData) (R : List (Nat × CharData))
    (p lc : Int) (hEmpty : cd.data = "") :
    cellsLoop env st eSC cur li y ((c, cd) :: R) p lc =
      cellsLoop env st eSC cur li y R
        (p + (st.charWidth : Int) * ((c : Int) - lc - 1)) (c : Int) := by
  simp only [cellsLoop, hEmpty, if_true]

/-- Evaluation of the per-line loop on a single drawable cell. -/
theorem cellsLoop_single (env : FontEnv) (st : Tty2img) (eSC : Bool) (cur : Cursor)
    (li : Nat) (y : Int) (c : Nat) (cd : CharData) (p lc q p2 : Int)
    (ops : List DrawOp)
    (hq : p + (st.charWidth : Int) * ((c : Int) - lc - 1) = q)
    (hne : cd.data ≠ "")
    (hc : cellOps env st eSC cur li y q c cd = Except.ok (ops, p2)) :
    cellsLoop env st eSC cur li y [(c, cd)] p lc = Except.ok (ops, p2, (c : Int)) := by
  simp only [cellsLoop, if_neg hne, hq, hc]
  simp [cellsLoop]

/-- A cell whose glyph is present in the selected variant always renders
successfully, advancing the pen by exactly one character width. -/
theorem cellOps_ok_of_hasGlyph (env : FontEnv) (st : Tty2img) (eSC : Bool) (cur : Cursor)
    (li : Nat) (y p : Int) (c : Nat) (cd : CharData)
    (hg : env.hasGlyph (st.pickFont cd).name cd.data = true) :
    ∃ ops, cellOps env st eSC cur li y p c cd =
      Except.ok (ops, p + (st.charWidth : Int)) := by
  have hm : Tty2img.memofont env (st.pickFont cd) cd.data =
      Except.ok (0, st.pickFont cd) := by
    simp [Tty2img.memofont, hg]
  simp only [cellOps, hm]
  exact ⟨_, by rw [add_zero]⟩

/-!
The claim theorems.
-/

/-- Claim C1: font size negotiation scans candidate integer point sizes
ascending from 8; at each size it computes charWidth (advance of the
reference glyph) and charHeight (ascent+descent+lineSpacing), projects
width = charWidth*cols + 2*margin and height = charHeight*lines + 2*margin,
and adopts the first size whose projected width or height exceeds the
1920x1080 cap; all four font variants are then loaded at that adopted size,
and the instance metrics come from the normal variant at that size. -/
theorem negotiation_adopts_first_overflow (env : FontEnv) (screen : Screen) (a : Args)
    (h : ∃ i, 8 ≤ i ∧ i < 64 ∧
      projOverflow env a.fontName a.lineSpace a.marginSize screen.columns screen.lines i = true) :
    let s := negotiateFontSize env a.fontName a.lineSpace a.marginSize
      screen.columns screen.lines a.fontSize
    (8 ≤ s ∧ s < 64) ∧
    projOverflow env a.fontName a.lineSpace a.marginSize screen.columns screen.lines s = true ∧
    (∀ j, 8 ≤ j → j < s →
      projOverflow env a.fontName a.lineSpace a.marginSize screen.columns screen.lines j = false) ∧
    (Tty2img.init env screen a).normalFont = ⟨a.fontName, s⟩ ∧
    (Tty2img.init env screen a).boldFont = ⟨a.boldFontName, s⟩ ∧
    (Tty2img.init env screen a).italicsFont = ⟨a.italicsFontName, s⟩ ∧
    (Tty2img.init env screen a).boldItalicsFont = ⟨a.boldItalicsFontName, s⟩ ∧
    (Tty2img.init env screen a).charWidth = env.getsizeW a.fontName s refGlyph ∧
    (Tty2img.init env screen a).charHeight = env.metricsSum a.fontName s + a.lineSpace := by
  intro s
  obtain ⟨i, hi1, hi2, hi3⟩ := h
  obtain ⟨b, hf⟩ := find?_range'_exists 56 8 ⟨i, hi1, by omega, hi3⟩
  obtain ⟨hb1, hb2, hb3, hb4⟩ := find?_range'_first 56 8 b hf
  have hs : s = b := by
    simp only [s, negotiateFontSize, hf]
  refine ⟨⟨by omega, by omega⟩, hs ▸ hb3, ?_, ?_, ?_, ?_, ?_, ?_, ?_⟩
  · intro j hj1 hj2
    exact hb4 j hj1 (hs ▸ hj2)
  all_goals simp [Tty2img.init]

/-- Claim C1 witness: with linear metrics on a 120-column screen, size 16 is
the first candidate whose projected width exceeds 1920, and the negotiation
adopts it. -/
theorem negotiation_adopts_first_overflow_witness :
    (∃ i, 8 ≤ i ∧ i < 64 ∧
      projOverflow testEnvLinear argsDefault.fontName argsDefault.lineSpace
        argsDefault.marginSize scr120.columns scr120.lines i = true) ∧
    (let s := negotiateFontSize testEnvLinear argsDefault.fontName argsDefault.lineSpace
      argsDefault.marginSize scr120.columns scr120.lines argsDefault.fontSize
    (8 ≤ s ∧ s < 64) ∧
    projOverflow testEnvLinear argsDefault.fontName argsDefault.lineSpace
      argsDefault.marginSize scr120.columns scr120.lines s = true ∧
    (∀ j, 8 ≤ j → j < s →
      projOverflow testEnvLinear argsDefault.fontName argsDefault.lineSpace
        argsDefault.marginSize scr120.columns scr120.lines j = false) ∧
    (Tty2img.init testEnvLinear scr120 argsDefault).normalFont = ⟨argsDefault.fontName, s⟩ ∧
    (Tty2img.init testEnvLinear scr120 argsDefault).boldFont = ⟨argsDefault.boldFontName, s⟩ ∧
    (Tty2img.init testEnvLinear scr120 argsDefault).italicsFont =
      ⟨argsDefault.italicsFontName, s⟩ ∧
    (Tty2img.init testEnvLinear scr120 argsDefault).boldItalicsFont =
      ⟨argsDefault.boldItalicsFontName, s⟩ ∧
    (Tty2img.init testEnvLinear scr120 argsDefault).charWidth =
      testEnvLinear.getsizeW argsDefault.fontName s refGlyph ∧
    (Tty2img.init testEnvLinear scr120 argsDefault).charHeight =
      testEnvLinear.metricsSum argsDefault.fontName s + argsDefault.lineSpace) :=
  ⟨⟨16, by decide, by decide, by decide⟩,
   negotiation_adopts_first_overflow testEnvLinear scr120 argsDefault
     ⟨16, by decide, by decide, by decide⟩⟩

/-- Claim C2 (code bug): when the selected variant lacks a glyph, the
fallback search never runs -- the body of `memofont` evaluates the unbound
name `fallbackFonts` (an `__init__` parameter that was never stored on
`self`; the `fclist` import is also commented out) and raises `NameError`,
so one character with a missing glyph aborts the whole render call instead
of degrading gracefully as the specification describes. -/
theorem missing_glyph_raises_name_error :
    Tty2img.memofont testEnvNoGlyph
      (Tty2img.init testEnvNoGlyph scr80 argsDefault).normalFont "q" =
      Except.error PyError.nameError ∧
    ((Tty2img.init testEnvNoGlyph scr80 argsDefault).render testEnvNoGlyph scrQ).2 =
      Except.error PyError.nameError :=
  ⟨rfl, rfl⟩

/-- Claim C3 counterexample: with constant one-pixel metrics on an 80x24
screen, no candidate size in 8..63 satisfies the stop condition, yet
construction does not fail -- `__init__` completes and loads the fonts at the
caller's nominal size 16 (the code has no error path for an exhausted
negotiation range). -/
theorem negotiation_exhausted_no_error_counterexample :
    (∀ j, j < 64 → 8 ≤ j →
      projOverflow testEnvTiny argsDefault.fontName argsDefault.lineSpace
        argsDefault.marginSize scr80.columns scr80.lines j = false) ∧
    (Tty2img.init testEnvTiny scr80 argsDefault).normalFont =
      ⟨argsDefault.fontName, 16⟩ ∧
    (Tty2img.init testEnvTiny scr80 argsDefault).boldFont =
      ⟨argsDefault.boldFontName, 16⟩ := by
  refine ⟨by decide, rfl, rfl⟩

/-- Claim C3 amended: when no candidate size in the scanned range 8..63
satisfies the stop condition, construction does not fail; the negotiation
returns the caller-supplied nominal font size and all four variants are
loaded at that nominal size. -/
theorem no_overflow_keeps_nominal_size (env : FontEnv) (screen : Screen) (a : Args)
    (h : ∀ j, j < 64 → 8 ≤ j →
      projOverflow env a.fontName a.lineSpace a.marginSize screen.columns screen.lines j = false) :
    negotiateFontSize env a.fontName a.lineSpace a.marginSize
      screen.columns screen.lines a.fontSize = a.fontSize ∧
    (Tty2img.init env screen a).normalFont = ⟨a.fontName, a.fontSize⟩ ∧
    (Tty2img.init env screen a).boldFont = ⟨a.boldFontName, a.fontSize⟩ ∧
    (Tty2img.init env screen a).italicsFont = ⟨a.italicsFontName, a.fontSize⟩ ∧
    (Tty2img.init env screen a).boldItalicsFont = ⟨a.boldItalicsFontName, a.fontSize⟩ := by
  have hnone : (List.range' 8 56).find?
      (fun i => projOverflow env a.fontName a.lineSpace a.marginSize
        screen.columns screen.lines i) = none :=
    find?_range'_of_all_neg 56 8 (fun j hj1 hj2 => h j (by omega) hj1)
  have hneg : negotiateFontSize env a.fontName a.lineSpace a.marginSize
      screen.columns screen.lines a.fontSize = a.fontSize := by
    simp [negotiateFontSize, hnone]
  exact ⟨hneg, by simp [Tty2img.init, hneg], by simp [Tty2img.init, hneg],
    by simp [Tty2img.init, hneg], by simp [Tty2img.init, hneg]⟩

/-- Claim C3 amended witness: the concrete no-overflow environment keeps the
nominal size 16. -/
theorem no_overflow_keeps_nominal_size_witness :
    (∀ j, j < 64 → 8 ≤ j →
      projOverflow testEnvTiny argsDefault.fontName argsDefault.lineSpace
        argsDefault.marginSize scr80.columns scr80.lines j = false) ∧
    (negotiateFontSize testEnvTiny argsDefault.fontName argsDefault.lineSpace
      argsDefault.marginSize scr80.columns scr80.lines argsDefault.fontSize =
      argsDefault.fontSize ∧
     (Tty2img.init testEnvTiny scr80 argsDefault).normalFont =
      ⟨argsDefault.fontName, argsDefault.fontSize⟩ ∧
     (Tty2img.init testEnvTiny scr80 argsDefault).boldFont =
      ⟨argsDefault.boldFontName, argsDefault.fontSize⟩ ∧
     (Tty2img.init testEnvTiny scr80 argsDefault).italicsFont =
      ⟨argsDefault.italicsFontName, argsDefault.fontSize⟩ ∧
     (Tty2img.init testEnvTiny scr80 argsDefault).boldItalicsFont =
      ⟨argsDefault.boldItalicsFontName, argsDefault.fontSize⟩) :=
  ⟨by decide, no_overflow_keeps_nominal_size testEnvTiny scr80 argsDefault (by decide)⟩

/-- Claim C4: effective colors substitute the configured defaults for the
`default` sentinels, then swap on the reverse flag, then swap again on the
effectively-shown cursor cell -- exactly in that order, so a reversed cursor
cell ends up with its original (substituted, un-swapped) colors. -/
theorem reverse_then_cursor_swap_order (st : Tty2img) (cd : CharData) :
    let bg0 := if cd.bg ≠ defaultSentinel then cd.bg else st.bgDefaultColor
    let fg0 := if cd.fg ≠ defaultSentinel then cd.fg else st.fgDefaultColor
    resolveCellColors st { cd with reverse := true } true = (bg0, fg0) ∧
    resolveCellColors st { cd with reverse := true } false = (fg0, bg0) ∧
    resolveCellColors st { cd with reverse := false } true = (fg0, bg0) ∧
    resolveCellColors st { cd with reverse := false } false = (bg0, fg0) := by
  simp [resolveCellColors]

/-- Claim C5 counterexample: a render call is not stateless -- rendering a
snapshot with a hidden cursor permanently clears the configured show-cursor
setting of the instance (line 165 reassigns `self.showCursor`). -/
theorem render_mutates_show_cursor_counterexample :
    (Tty2img.init testEnvTiny scr80 { showCursor := true }).showCursor = true ∧
    ((Tty2img.init testEnvTiny scr80 { showCursor := true }).render
        testEnvTiny scrHiddenCursor).1.showCursor = false :=
  ⟨rfl, rfl⟩

/-- Claim C5 amended: a render call leaves every field of the instance
unchanged -- fonts, metrics, dimensions, colors, template canvas -- except
the show-cursor setting, which is overwritten with its conjunction with the
visibility of the snapshot's cursor; the input snapshot is a value and is
not mutated, and the only other effect is the returned image. -/
theorem render_state_effect (env : FontEnv) (st : Tty2img) (screen : Screen) :
    (st.render env screen).1.antialiasing = st.antialiasing ∧
    (st.render env screen).1.lineSpace = st.lineSpace ∧
    (st.render env screen).1.marginSize = st.marginSize ∧
    (st.render env screen).1.fontSize = st.fontSize ∧
    (st.render env screen).1.normalFont = st.normalFont ∧
    (st.render env screen).1.boldFont = st.boldFont ∧
    (st.render env screen).1.italicsFont = st.italicsFont ∧
    (st.render env screen).1.boldItalicsFont = st.boldItalicsFont ∧
    (st.render env screen).1.charWidth = st.charWidth ∧
    (st.render env screen).1.charHeight = st.charHeight ∧
    (st.render env screen).1.imgWidth = st.imgWidth ∧
    (st.render env screen).1.imgHeight = st.imgHeight ∧
    (st.render env screen).1.bgDefaultColor = st.bgDefaultColor ∧
    (st.render env screen).1.fgDefaultColor = st.fgDefaultColor ∧
    (st.render env screen).1.base_image = st.base_image ∧
    (st.render env screen).1.showCursor = (st.showCursor && !screen.cursor.hidden) := by
  rw [render_fst]
  simp

/-- Claim C6: a successful render returns an image of the fixed cap
dimensions 1920x1080, or the cap divided by the antialiasing factor when the
factor exceeds 1, for every snapshot -- independent of its rows and
columns. -/
theorem render_dimensions_fixed (env : FontEnv) (a : Args) (screen0 screen : Screen)
    (img : Image)
    (h : ((Tty2img.init env screen0 a).render env screen).2 = Except.ok img) :
    img.width = (if 1 < a.antialiasing then 1920 / a.antialiasing else 1920) ∧
    img.height = (if 1 < a.antialiasing then 1080 / a.antialiasing else 1080) := by
  have hd := render_ok_dims env (Tty2img.init env screen0 a) screen img h
  have h1 : (Tty2img.init env screen0 a).antialiasing = a.antialiasing := by
    simp [Tty2img.init]
  have h2 : (Tty2img.init env screen0 a).imgWidth = 1920 := by simp [Tty2img.init]
  have h3 : (Tty2img.init env screen0 a).imgHeight = 1080 := by simp [Tty2img.init]
  have h4 : (Tty2img.init env screen0 a).base_image.width = 1920 := by simp [Tty2img.init]
  have h5 : (Tty2img.init env screen0 a).base_image.height = 1080 := by simp [Tty2img.init]
  rw [h1, h2, h3, h4, h5] at hd
  exact hd

/-- Claim C6 witness: a concrete empty snapshot renders to a 1920x1080
image. -/
theorem render_dimensions_fixed_witness :
    ((Tty2img.init testEnvTiny scr80 argsDefault).render testEnvTiny scr80).2 =
      Except.ok (Image.mk 1920 1080 "white" []) ∧
    ((Image.mk 1920 1080 "white" []).width =
      (if 1 < argsDefault.antialiasing then 1920 / argsDefault.antialiasing else 1920) ∧
     (Image.mk 1920 1080 "white" []).height =
      (if 1 < argsDefault.antialiasing then 1080 / argsDefault.antialiasing else 1080)) :=
  ⟨rfl, render_dimensions_fixed testEnvTiny argsDefault scr80 scr80
    (Image.mk 1920 1080 "white" []) rfl⟩

/-- Claim C7 counterexample: with an antialiasing factor of 2, the stored
margin is scaled, but the font size actually used for glyph rasterization
and the line spacing entering charHeight are not -- both are identical to
their values without antialiasing (the scaled `self.fontSize` and
`self.lineSpace` are stored and never used), so the claim that all drawing
geometry is scaled by the factor fails at this input. -/
theorem antialias_partial_scaling_counterexample :
    argsAA2.antialiasing = 2 ∧
    (Tty2img.init testEnvWide scr80 argsAA2).marginSize = 2 * argsAA0.marginSize ∧
    (Tty2img.init testEnvWide scr80 argsAA2).normalFont.size = 8 ∧
    (Tty2img.init testEnvWide scr80 argsAA0).normalFont.size = 8 ∧
    (8 : Nat) ≠ 2 * 8 ∧
    (Tty2img.init testEnvWide scr80 argsAA2).charHeight = 11 ∧
    (Tty2img.init testEnvWide scr80 argsAA0).charHeight = 11 ∧
    (11 : Nat) ≠ 10 + 2 * argsAA2.lineSpace := by
  decide

/-- Claim C7 amended: when the antialiasing factor F exceeds 1, the margin
used for drawing (and the stored lineSpace/fontSize fields) are scaled by F
and the final image is downsampled by F; but the font size actually used for
rasterization is the size negotiated from the unscaled metrics, and the line
spacing entering charHeight is the unscaled configured value. -/
theorem antialias_scaling_actual (env : FontEnv) (screen : Screen) (a : Args)
    (h : 1 < a.antialiasing) :
    (Tty2img.init env screen a).marginSize = a.marginSize * a.antialiasing ∧
    (Tty2img.init env screen a).lineSpace = a.lineSpace * a.antialiasing ∧
    (Tty2img.init env screen a).fontSize = a.fontSize * a.antialiasing ∧
    (Tty2img.init env screen a).normalFont.size =
      negotiateFontSize env a.fontName a.lineSpace a.marginSize
        screen.columns screen.lines a.fontSize ∧
    (Tty2img.init env screen a).charHeight =
      env.metricsSum a.fontName (negotiateFontSize env a.fontName a.lineSpace a.marginSize
        screen.columns screen.lines a.fontSize) + a.lineSpace ∧
    ∀ (screen2 : Screen) (img : Image),
      ((Tty2img.init env screen a).render env screen2).2 = Except.ok img →
      img.width = 1920 / a.antialiasing ∧ img.height = 1080 / a.antialiasing := by
  refine ⟨by simp [Tty2img.init, if_pos h], by simp [Tty2img.init, if_pos h],
    by simp [Tty2img.init, if_pos h], by simp [Tty2img.init], by simp [Tty2img.init],
    fun screen2 img himg => ?_⟩
  have hd := render_ok_dims env (Tty2img.init env screen a) screen2 img himg
  have h1 : (Tty2img.init env screen a).antialiasing = a.antialiasing := by
    simp [Tty2img.init]
  have h2 : (Tty2img.init env screen a).imgWidth = 1920 := by simp [Tty2img.init]
  have h3 : (Tty2img.init env screen a).imgHeight = 1080 := by simp [Tty2img.init]
  rw [h1, h2, h3, if_pos h, if_pos h] at hd
  exact hd

/-- Claim C7 amended witness: the concrete factor-2 configuration. -/
theorem antialias_scaling_actual_witness :
    1 < argsAA2.antialiasing ∧
    ((Tty2img.init testEnvWide scr80 argsAA2).marginSize =
      argsAA2.marginSize * argsAA2.antialiasing ∧
     (Tty2img.init testEnvWide scr80 argsAA2).lineSpace =
      argsAA2.lineSpace * argsAA2.antialiasing ∧
     (Tty2img.init testEnvWide scr80 argsAA2).fontSize =
      argsAA2.fontSize * argsAA2.antialiasing ∧
     (Tty2img.init testEnvWide scr80 argsAA2).normalFont.size =
      negotiateFontSize testEnvWide argsAA2.fontName argsAA2.lineSpace argsAA2.marginSize
        scr80.columns scr80.lines argsAA2.fontSize ∧
     (Tty2img.init testEnvWide scr80 argsAA2).charHeight =
      testEnvWide.metricsSum argsAA2.fontName
        (negotiateFontSize testEnvWide argsAA2.fontName argsAA2.lineSpace argsAA2.marginSize
          scr80.columns scr80.lines argsAA2.fontSize) + argsAA2.lineSpace ∧
     ∀ (screen2 : Screen) (img : Image),
      ((Tty2img.init testEnvWide scr80 argsAA2).render testEnvWide screen2).2 =
        Except.ok img →
      img.width = 1920 / argsAA2.antialiasing ∧
        img.height = 1080 / argsAA2.antialiasing) :=
  ⟨by decide, antialias_scaling_actual testEnvWide scr80 argsAA2 (by decide)⟩

/-- Claim C8: gap-skipping and explicit blank cells are pixel-equivalent --
in a row with columns 0 and 5 populated, column 5's cell produces exactly
the same drawing operations, at pen position margin + 5*charWidth, whether
columns 1..4 are absent (covered by the gap advance) or populated with blank
default-colored cells. -/
theorem gap_skip_blank_cells_same_position (env : FontEnv) (st : Tty2img) (eSC : Bool)
    (cur : Cursor) (li : Nat) (y : Int) (c0 c5 : CharData)
    (h0 : c0.data ≠ "") (h5 : c5.data ≠ "")
    (hg0 : env.hasGlyph (st.pickFont c0).name c0.data = true)
    (hg5 : env.hasGlyph (st.pickFont c5).name c5.data = true)
    (hgb : env.hasGlyph st.normalFont.name blankCell.data = true) :
    ∃ ops0 opsB ops5,
      cellOps env st eSC cur li y
          ((st.marginSize : Int) + 5 * (st.charWidth : Int)) 5 c5 =
        Except.ok (ops5, (st.marginSize : Int) + 6 * (st.charWidth : Int)) ∧
      cellsLoop env st eSC cur li y [(0, c0), (5, c5)]
          (st.marginSize : Int) (-1) =
        Except.ok (ops0 ++ ops5, (st.marginSize : Int) + 6 * (st.charWidth : Int), 5) ∧
      cellsLoop env st eSC cur li y
          [(0, c0), (1, blankCell), (2, blankCell), (3, blankCell), (4, blankCell), (5, c5)]
          (st.marginSize : Int) (-1) =
        Except.ok (ops0 ++ opsB ++ ops5,
          (st.marginSize : Int) + 6 * (st.charWidth : Int), 5) := by
  have hgb2 : env.hasGlyph (st.pickFont blankCell).name blankCell.data = true := hgb
  have hbne : blankCell.data ≠ "" := by decide
  obtain ⟨ops0, hc0⟩ := cellOps_ok_of_hasGlyph env st eSC cur li y
    ((st.marginSize : Int)) 0 c0 hg0
  obtain ⟨b1, hb1⟩ := cellOps_ok_of_hasGlyph env st eSC cur li y
    ((st.marginSize : Int) + (st.charWidth : Int)) 1 blankCell hgb2
  obtain ⟨b2, hb2⟩ := cellOps_ok_of_hasGlyph env st eSC cur li y
    ((st.marginSize : Int) + 2 * (st.charWidth : Int)) 2 blankCell hgb2
  obtain ⟨b3, hb3⟩ := cellOps_ok_of_hasGlyph env st eSC cur li y
    ((st.marginSize : Int) + 3 * (st.charWidth : Int)) 3 blankCell hgb2
  obtain ⟨b4, hb4⟩ := cellOps_ok_of_hasGlyph env st eSC cur li y
    ((st.marginSize : Int) + 4 * (st.charWidth : Int)) 4 blankCell hgb2
  obtain ⟨ops5, hc5⟩ := cellOps_ok_of_hasGlyph env st eSC cur li y
    ((st.marginSize : Int) + 5 * (st.charWidth : Int)) 5 c5 hg5
  rw [show (st.marginSize : Int) + (st.charWidth : Int) + (st.charWidth : Int) =
    (st.marginSize : Int) + 2 * (st.charWidth : Int) from by ring] at hb1
  rw [show (st.marginSize : Int) + 2 * (st.charWidth : Int) + (st.charWidth : Int) =
    (st.marginSize : Int) + 3 * (st.charWidth : Int) from by ring] at hb2
  rw [show (st.marginSize : Int) + 3 * (st.charWidth : Int) + (st.charWidth : Int) =
    (st.marginSize : Int) + 4 * (st.charWidth : Int) from by ring] at hb3
  rw [show (st.marginSize : Int) + 4 * (st.charWidth : Int) + (st.charWidth : Int) =
    (st.marginSize : Int) + 5 * (st.charWidth : Int) from by ring] at hb4
  rw [show (st.marginSize : Int) + 5 * (st.charWidth : Int) + (st.charWidth : Int) =
    (st.marginSize : Int) + 6 * (st.charWidth : Int) from by ring] at hc5
  have hA : cellsLoop env st eSC cur li y [(0, c0)] ((st.marginSize : Int)) (-1) =
      Except.ok (ops0, (st.marginSize : Int) + (st.charWidth : Int), ((0 : Nat) : Int)) :=
    cellsLoop_single env st eSC cur li y 0 c0 ((st.marginSize : Int)) (-1)
      ((st.marginSize : Int)) ((st.marginSize : Int) + (st.charWidth : Int)) ops0
      (by push_cast; ring) h0 hc0
  have hB1 : cellsLoop env st eSC cur li y [(1, blankCell)]
      ((st.marginSize : Int) + (st.charWidth : Int)) ((0 : Nat) : Int) =
      Except.ok (b1, (st.marginSize : Int) + 2 * (st.charWidth : Int), ((1 : Nat) : Int)) :=
    cellsLoop_single env st eSC cur li y 1 blankCell
      ((st.marginSize : Int) + (st.charWidth : Int)) ((0 : Nat) : Int)
      ((st.marginSize : Int) + (st.charWidth : Int))
      ((st.marginSize : Int) + 2 * (st.charWidth : Int)) b1
      (by push_cast; ring) hbne hb1
  have hB2 : cellsLoop env st eSC cur li y [(2, blankCell)]
      ((st.marginSize : Int) + 2 * (st.charWidth : Int)) ((1 : Nat) : Int) =
      Except.ok (b2, (st.marginSize : Int) + 3 * (st.charWidth : Int), ((2 : Nat) : Int)) :=
    cellsLoop_single env st eSC cur li y 2 blankCell
      ((st.marginSize : Int) + 2 * (st.charWidth : Int)) ((1 : Nat) : Int)
      ((st.marginSize : Int) + 2 * (st.charWidth : Int))
      ((st.marginSize : Int) + 3 * (st.charWidth : Int)) b2
      (by push_cast; ring) hbne hb2
  have hB3 : cellsLoop env st eSC cur li y [(3, blankCell)]
      ((st.marginSize : Int) + 3 * (st.charWidth : Int)) ((2 : Nat) : Int) =
      Except.ok (b3, (st.marginSize : Int) + 4 * (st.charWidth : Int), ((3 : Nat) : Int)) :=
    cellsLoop_single env st eSC cur li y 3 blankCell
      ((st.marginSize : Int) + 3 * (st.charWidth : Int)) ((2 : Nat) : Int)
      ((st.marginSize : Int) + 3 * (st.charWidth : Int))
      ((st.marginSize : Int) + 4 * (st.charWidth : Int)) b3
      (by push_cast; ring) hbne hb3
  have hB4 : cellsLoop env st eSC cur li y [(4, blankCell)]
      ((st.marginSize : Int) + 4 * (st.charWidth : Int)) ((3 : Nat) : Int) =
      Except.ok (b4, (st.marginSize : Int) + 5 * (st.charWidth : Int), ((4 : Nat) : Int)) :=
    cellsLoop_single env st eSC cur li y 4 blankCell
      ((st.marginSize : Int) + 4 * (st.charWidth : Int)) ((3 : Nat) : Int)
      ((st.marginSize : Int) + 4 * (st.charWidth : Int))
      ((st.marginSize : Int) + 5 * (st.charWidth : Int)) b4
      (by push_cast; ring) hbne hb4
  have hB5 : cellsLoop env st eSC cur li y [(5, c5)]
      ((st.marginSize : Int) + 5 * (st.charWidth : Int)) ((4 : Nat) : Int) =
      Except.ok (ops5, (st.marginSize : Int) + 6 * (st.charWidth : Int), ((5 : Nat) : Int)) :=
    cellsLoop_single env st eSC cur li y 5 c5
      ((st.marginSize : Int) + 5 * (st.charWidth : Int)) ((4 : Nat) : Int)
      ((st.marginSize : Int) + 5 * (st.charWidth : Int))
      ((st.marginSize : Int) + 6 * (st.charWidth : Int)) ops5
      (by push_cast; ring) h5 hc5
  have hA5 : cellsLoop env st eSC cur li y [(5, c5)]
      ((st.marginSize : Int) + (st.charWidth : Int)) ((0 : Nat) : Int) =
      Except.ok (ops5, (st.marginSize : Int) + 6 * (st.charWidth : Int), ((5 : Nat) : Int)) :=
    cellsLoop_single env st eSC cur li y 5 c5
      ((st.marginSize : Int) + (st.charWidth : Int)) ((0 : Nat) : Int)
      ((st.marginSize : Int) + 5 * (st.charWidth : Int))
      ((st.marginSize : Int) + 6 * (st.charWidth : Int)) ops5
      (by push_cast; ring) h5 hc5
  have hArow := cellsLoop_append_ok env st eSC cur li y [(0, c0)] [(5, c5)]
    ((st.marginSize : Int)) (-1) ((st.marginSize : Int) + (st.charWidth : Int))
    ((st.marginSize : Int) + 6 * (st.charWidth : Int)) ((0 : Nat) : Int) ((5 : Nat) : Int)
    ops0 ops5 hA hA5
  have h45 := cellsLoop_append_ok env st eSC cur li y [(4, blankCell)] [(5, c5)]
    ((st.marginSize : Int) + 4 * (st.charWidth : Int)) ((3 : Nat) : Int)
    ((st.marginSize : Int) + 5 * (st.charWidth : Int))
    ((st.marginSize : Int) + 6 * (st.charWidth : Int)) ((4 : Nat) : Int) ((5 : Nat) : Int)
    b4 ops5 hB4 hB5
  have h345 := cellsLoop_append_ok env st eSC cur li y [(3, blankCell)]
    ([(4, blankCell)] ++ [(5, c5)])
    ((st.marginSize : Int) + 3 * (st.charWidth : Int)) ((2 : Nat) : Int)
    ((st.marginSize : Int) + 4 * (st.charWidth : Int))
    ((st.marginSize : Int) + 6 * (st.charWidth : Int)) ((3 : Nat) : Int) ((5 : Nat) : Int)
    b3 (b4 ++ ops5) hB3 h45
  have h2345 := cellsLoop_append_ok env st eSC cur li y [(2, blankCell)]
    ([(3, blankCell)] ++ ([(4, blankCell)] ++ [(5, c5)]))
    ((st.marginSize : Int) + 2 * (st.charWidth : Int)) ((1 : Nat) : Int)
    ((st.marginSize : Int) + 3 * (st.charWidth : Int))
    ((st.marginSize : Int) + 6 * (st.charWidth : Int)) ((2 : Nat) : Int) ((5 : Nat) : Int)
    b2 (b3 ++ (b4 ++ ops5)) hB2 h345
  have h12345 := cellsLoop_append_ok env st eSC cur li y [(1, blankCell)]
    ([(2, blankCell)] ++ ([(3, blankCell)] ++ ([(4, blankCell)] ++ [(5, c5)])))
    ((st.marginSize : Int) + (st.charWidth : Int)) ((0 : Nat) : Int)
    ((st.marginSize : Int) + 2 * (st.charWidth : Int))
    ((st.marginSize : Int) + 6 * (st.charWidth : Int)) ((1 : Nat) : Int) ((5 : Nat) : Int)
    b1 (b2 ++ (b3 ++ (b4 ++ ops5))) hB1 h2345
  have hBrow := cellsLoop_append_ok env st eSC cur li y [(0, c0)]
    ([(1, blankCell)] ++ ([(2, blankCell)] ++ ([(3, blankCell)] ++
      ([(4, blankCell)] ++ [(5, c5)]))))
    ((st.marginSize : Int)) (-1) ((st.marginSize : Int) + (st.charWidth : Int))
    ((st.marginSize : Int) + 6 * (st.charWidth : Int)) ((0 : Nat) : Int) ((5 : Nat) : Int)
    ops0 (b1 ++ (b2 ++ (b3 ++ (b4 ++ ops5)))) hA h12345
  refine ⟨ops0, b1 ++ b2 ++ b3 ++ b4, ops5, hc5, hArow, ?_⟩
  have hl : ([(0, c0)] ++ ([(1, blankCell)] ++ ([(2, blankCell)] ++ ([(3, blankCell)] ++
      ([(4, blankCell)] ++ [(5, c5)]))))) =
      ([(0, c0), (1, blankCell), (2, blankCell), (3, blankCell), (4, blankCell), (5, c5)] :
        List (Nat × CharData)) := rfl
  rw [hl] at hBrow
  rw [hBrow]
  simp [List.append_assoc]

/-- Claim C8 witness: the concrete check with default-styled letter cells in
`stW`: column 5's glyph lands at pen position 510 in both rows. -/
theorem gap_skip_blank_cells_same_position_witness :
    (cellA.data ≠ "" ∧
     testEnvWide.hasGlyph (stW.pickFont cellA).name cellA.data = true ∧
     testEnvWide.hasGlyph stW.normalFont.name blankCell.data = true) ∧
    (∃ ops0 opsB ops5,
      cellOps testEnvWide stW false cur0 0 0
          ((stW.marginSize : Int) + 5 * (stW.charWidth : Int)) 5 cellA =
        Except.ok (ops5, (stW.marginSize : Int) + 6 * (stW.charWidth : Int)) ∧
      cellsLoop testEnvWide stW false cur0 0 0 [(0, cellA), (5, cellA)]
          (stW.marginSize : Int) (-1) =
        Except.ok (ops0 ++ ops5, (stW.marginSize : Int) + 6 * (stW.charWidth : Int), 5) ∧
      cellsLoop testEnvWide stW false cur0 0 0
          [(0, cellA), (1, blankCell), (2, blankCell), (3, blankCell), (4, blankCell),
            (5, cellA)]
          (stW.marginSize : Int) (-1) =
        Except.ok (ops0 ++ opsB ++ ops5,
          (stW.marginSize : Int) + 6 * (stW.charWidth : Int), 5)) :=
  ⟨⟨by decide, rfl, rfl⟩,
   gap_skip_blank_cells_same_position testEnvWide stW false cur0 0 0 cellA cellA
     (by decide) (by decide) rfl rfl rfl⟩

/-- Claim C9: every successful glyph resolution returns a non-negative extra
advance width, so a resolved glyph never makes a cell's total advance
smaller than the canonical cell width (in fact the only path of `memofont`
that returns at all yields extra width exactly 0). -/
theorem memofont_extra_width_nonneg (env : FontEnv) (font : LoadedFont) (ch : String)
    (w : Int) (g : LoadedFont)
    (h : Tty2img.memofont env font ch = Except.ok (w, g)) : 0 ≤ w := by
  unfold Tty2img.memofont at h
  split at h
  · simp only [Except.ok.injEq, Prod.mk.injEq] at h
    omega
  · exact Except.noConfusion h

/-- Claim C9 witness: a concrete successful resolution with extra width 0. -/
theorem memofont_extra_width_nonneg_witness :
    Tty2img.memofont testEnvLinear fontW refGlyph = Except.ok (0, fontW) ∧ (0 : Int) ≤ 0 :=
  ⟨rfl, memofont_extra_width_nonneg testEnvLinear fontW refGlyph 0 fontW rfl⟩

/-- Claim C10: a populated cell whose character is the empty placeholder
updates the last-column tracker and adds only the gap advance (no advance of
its own, no drawing operations); consequently every later populated column
in the row is drawn exactly one charWidth further left (all its operations
shifted by -charWidth) than when the empty cell is absent from the sparse
row. -/
theorem empty_cell_shifts_later_columns (env : FontEnv) (st : Tty2img) (eSC : Bool)
    (cur : Cursor) (li : Nat) (y : Int) (pre rest : List (Nat × CharData))
    (c n : Nat) (cd cdn : CharData) (p lchar p1 l1 pf lf : Int)
    (opsPre opsPost : List DrawOp)
    (hEmpty : cd.data = "")
    (hPre : cellsLoop env st eSC cur li y pre p lchar = Except.ok (opsPre, p1, l1))
    (hPost : cellsLoop env st eSC cur li y ((n, cdn) :: rest) p1 l1 =
      Except.ok (opsPost, pf, lf)) :
    cellsLoop env st eSC cur li y (pre ++ (n, cdn) :: rest) p lchar =
      Except.ok (opsPre ++ opsPost, pf, lf) ∧
    cellsLoop env st eSC cur li y (pre ++ (c, cd) :: (n, cdn) :: rest) p lchar =
      Except.ok (opsPre ++ opsPost.map (shiftOp (-(st.charWidth : Int))),
        pf - (st.charWidth : Int), lf) ∧
    cellsLoop env st eSC cur li y [(c, cd)] p1 l1 =
      Except.ok ([], p1 + (st.charWidth : Int) * ((c : Int) - l1 - 1), (c : Int)) := by
  refine ⟨cellsLoop_append_ok env st eSC cur li y pre ((n, cdn) :: rest)
      p lchar p1 pf l1 lf opsPre opsPost hPre hPost, ?_, ?_⟩
  · have hstep : cellsLoop env st eSC cur li y ((c, cd) :: (n, cdn) :: rest) p1 l1 =
        Except.ok (opsPost.map (shiftOp (-(st.charWidth : Int))),
          pf - (st.charWidth : Int), lf) := by
      rw [cellsLoop_empty_cons env st eSC cur li y c cd ((n, cdn) :: rest) p1 l1 hEmpty]
      rw [cellsLoop_state_eq env st eSC cur li y n cdn rest
        (p1 + (st.charWidth : Int) * ((c : Int) - l1 - 1)) (c : Int)
        (p1 + (-(st.charWidth : Int))) l1 (by ring)]
      rw [cellsLoop_shift env st eSC cur li y ((n, cdn) :: rest) p1 l1
        (-(st.charWidth : Int))]
      rw [hPost]
      simp [Except.map, sub_eq_add_neg]
    exact cellsLoop_append_ok env st eSC cur li y pre ((c, cd) :: (n, cdn) :: rest)
      p lchar p1 (pf - (st.charWidth : Int)) l1 lf opsPre
      (opsPost.map (shiftOp (-(st.charWidth : Int)))) hPre hstep
  · rw [cellsLoop_empty_cons env st eSC cur li y c cd [] p1 l1 hEmpty]
    rfl

/-- Claim C10 witness: in `stW`, inserting an empty-placeholder cell at
column 2 between populated columns 0 and 5 moves column 5's glyph from pen
position 510 to 410 -- exactly one charWidth (100) further left -- and the
empty cell itself draws nothing. -/
theorem empty_cell_shifts_later_columns_witness :
    (cellEmpty.data = "" ∧
     cellsLoop testEnvWide stW false cur0 0 0 [(0, cellA)] 10 (-1) =
       Except.ok (opsA0, 110, 0) ∧
     cellsLoop testEnvWide stW false cur0 0 0 [(5, cellA)] 110 0 =
       Except.ok (opsA5, 610, 5)) ∧
    (cellsLoop testEnvWide stW false cur0 0 0 ([(0, cellA)] ++ [(5, cellA)]) 10 (-1) =
       Except.ok (opsA0 ++ opsA5, 610, 5) ∧
     cellsLoop testEnvWide stW false cur0 0 0
         ([(0, cellA)] ++ (2, cellEmpty) :: [(5, cellA)]) 10 (-1) =
       Except.ok (opsA0 ++ opsA5.map (shiftOp (-(stW.charWidth : Int))),
         610 - (stW.charWidth : Int), 5) ∧
     cellsLoop testEnvWide stW false cur0 0 0 [(2, cellEmpty)] 110 0 =
       Except.ok ([], 110 + (stW.charWidth : Int) * ((2 : Int) - 0 - 1), 2)) :=
  ⟨⟨rfl, rfl, rfl⟩,
   empty_cell_shifts_later_columns testEnvWide stW false cur0 0 0 [(0, cellA)] []
     2 5 cellEmpty cellA 10 (-1) 110 0 610 5 opsA0 opsA5 rfl rfl rfl⟩
